import Mathlib

/-!
# Verification of the `ezinput` input-state core

Shallow embedding of the repository's two source files:

* `src/state.rs` — the `PressState` / `AxisState` state machine with its
  elapsed-time queries and its comparison, and the aggregate predicates over
  sequences of `AxisState`;
* `src/gamepad.rs` — the gamepad event translator that classifies raw event
  magnitudes against a dead-zone threshold and writes the result into the
  matching input view.

Modelling conventions:

* A monotonic timestamp (`Instant` in the source) is a natural number of
  nanoseconds, and a `Duration` is likewise a `Nat` nanosecond count; the
  ambient clock reading (`Instant::now()` in the source) is threaded through
  every time-dependent operation as an explicit `now : Nat` argument.
  `Duration::as_millis` is truncating division by `1000000`, and Rust's
  saturating `Instant::elapsed` is natural-number subtraction `now - t`.
* `F32` models the IEEE single-precision values appearing in the translator,
  restricted to the operations the source uses: a value is either `nan` or a
  finite rational, `abs` maps `nan` to `nan`, and the boolean comparison
  `fle` (the `<=` of floats) is `false` whenever either side is `nan`.  The
  dead-zone literal `0.1_f32` is modelled by the rational `1/10`; no claim
  distinguishes the rational from its nearest `f32`.
* The host's entity query is a list of `InputView × GamepadMarker` pairs in
  iteration order, and the event reader is a list of events in arrival order.
-/

/-- `t.elapsed()` at clock reading `now`: Rust's saturating
`Instant::elapsed`, i.e. natural subtraction. -/
def Instant.elapsedAt (now t : Nat) : Nat :=
  now - t

/-- `Duration::as_millis`: whole milliseconds, truncating. -/
def Duration.asMillis (d : Nat) : Nat :=
  d / 1000000

/-- The press state of a button or axis (`PressState` in `state.rs`). -/
inductive PressState where
  /-- Pressed, with the optional instant the press started. -/
  | Pressed (started_pressing_instant : Option Nat) : PressState
  /-- Released. -/
  | Released : PressState
  deriving DecidableEq, Repr

namespace PressState

/-- `PressState::released`: `*self == PressState::Released`. -/
def released (s : PressState) : Bool :=
  s == PressState.Released

/-- `PressState::pressed`: `matches!(*self, PressState::Pressed { .. })`. -/
def pressed (s : PressState) : Bool :=
  match s with
  | .Pressed _ => true
  | .Released => false

/-- `PressState::is_pressed_for`:
`started.is_some() && started.unwrap().elapsed() >= duration`, else `false`. -/
def is_pressed_for (now : Nat) (s : PressState) (duration : Nat) : Bool :=
  match s with
  | .Pressed started_pressing_instant =>
      started_pressing_instant.isSome
        && decide (duration ≤ Instant.elapsedAt now (started_pressing_instant.getD 0))
  | .Released => false

/-- `PressState::just_pressed`: for `Pressed(Some(t))`,
`t.elapsed().as_millis() <= 1`; for `Pressed(None)`, `true`; else `false`. -/
def just_pressed (now : Nat) (s : PressState) : Bool :=
  match s with
  | .Pressed started_pressing_instant =>
      match started_pressing_instant with
      | some instant => decide (Duration.asMillis (Instant.elapsedAt now instant) ≤ 1)
      | none => true
  | .Released => false

/-- `PressState::elapsed`: `started.map(|t| t.elapsed()).or(Some(Duration::ZERO))`
when pressed, `None` when released. -/
def elapsed (now : Nat) (s : PressState) : Option Nat :=
  match s with
  | .Pressed started_pressing_instant =>
      (started_pressing_instant.map (fun t => Instant.elapsedAt now t)).or (some 0)
  | .Released => none

/-- Rust's `Ord::cmp` on integers, hence on `Nat`. -/
def instantCmp (a b : Nat) : Ordering :=
  if a < b then .lt else if a = b then .eq else .gt

/-- Rust's derived `Ord::cmp` on `Option<Nat>`: `None` is least, two
`Some`s compare by their contents. -/
def optInstantCmp : Option Nat → Option Nat → Ordering
  | none, none => .eq
  | none, some _ => .lt
  | some _, none => .gt
  | some a, some b => instantCmp a b

/-- `PartialOrd::partial_cmp` for `PressState` (`state.rs`): always `Some`;
`Pressed` against `Pressed` compares the optional instants, `Pressed` is
greater than `Released`, `Released` equals `Released`. -/
def pcmp (s other : PressState) : Option Ordering :=
  match s with
  | .Pressed a =>
      match other with
      | .Pressed b => some (optInstantCmp a b)
      | .Released => some .gt
  | .Released =>
      match other with
      | .Pressed _ => some .lt
      | .Released => some .eq

/-- `Ord::cmp` for `PressState`: `self.partial_cmp(other).unwrap()`. -/
def cmp (s other : PressState) : Ordering :=
  (pcmp s other).get!

end PressState

/-- Single-precision float values as the translator uses them: either NaN or
a finite rational.  Only `abs` and the `<=` comparison are needed. -/
inductive F32 where
  | nan : F32
  | fin (q : ℚ) : F32
  deriving DecidableEq, Repr

namespace F32

/-- `f32::abs`: NaN stays NaN, a finite value takes its absolute value. -/
def abs : F32 → F32
  | .nan => .nan
  | .fin q => .fin |q|

/-- The IEEE `<=` on `f32`: false whenever either operand is NaN. -/
def fle : F32 → F32 → Bool
  | .fin a, .fin b => decide (a ≤ b)
  | _, _ => false

end F32

/-- `AxisState` (`state.rs`): the raw magnitude together with the press
state of one receiver. -/
structure AxisState where
  value : F32
  press : PressState
  deriving DecidableEq, Repr

namespace AxisState

/-- `AxisState::ZERO`. -/
def ZERO : AxisState :=
  { value := .fin 0, press := .Released }

/-- `AxisState::new`. -/
def new (value : F32) (press : PressState) : AxisState :=
  { value := value, press := press }

/-- `AxisState::set`: replace both fields. -/
def set (s : AxisState) (value : F32) (press : PressState) : AxisState :=
  { s with value := value, press := press }

end AxisState

namespace VecExt

/-- `AxisStateVecExt for Vec<AxisState>`: `self.iter().all(|s| s.press.pressed())`. -/
def is_all_pressed (l : List AxisState) : Bool :=
  l.all (fun s => s.press.pressed)

/-- `AxisStateVecExt for Vec<AxisState>`: `self.iter().all(|s| s.press.just_pressed())`. -/
def is_all_just_pressed (now : Nat) (l : List AxisState) : Bool :=
  l.all (fun s => PressState.just_pressed now s.press)

/-- `AxisStateVecExt for Vec<AxisState>`: `self.iter().all(|s| s.press.released())`. -/
def is_all_released (l : List AxisState) : Bool :=
  l.all (fun s => s.press.released)

end VecExt

namespace IterExt

/-- Consuming `Iterator::all` over the remaining items of an iterator. -/
def allIter (p : AxisState → Bool) : List AxisState → Bool
  | [] => true
  | s :: rest => p s && allIter p rest

/-- `AxisStateVecExt for Iter<AxisState>`: `self.all(|s| s.press.pressed())`. -/
def is_all_pressed (l : List AxisState) : Bool :=
  allIter (fun s => s.press.pressed) l

/-- `AxisStateVecExt for Iter<AxisState>`: `self.all(|s| s.press.just_pressed())`. -/
def is_all_just_pressed (now : Nat) (l : List AxisState) : Bool :=
  allIter (fun s => PressState.just_pressed now s.press) l

/-- `AxisStateVecExt for Iter<AxisState>`: `self.all(|s| s.press.released())`. -/
def is_all_released (l : List AxisState) : Bool :=
  allIter (fun s => s.press.released) l

end IterExt

/-- A physical gamepad identifier (`bevy::prelude::Gamepad`). -/
structure Gamepad where
  id : Nat
  deriving DecidableEq, Repr

/-- A gamepad button kind (`bevy` enum, opaque here). -/
abbrev GamepadButtonType := Nat

/-- A gamepad axis kind (`bevy` enum, opaque here). -/
abbrev GamepadAxisType := Nat

/-- Modelled from the spec: the device classes a change can come from
(`InputSource`, defined outside `src/`); only `Gamepad` is produced here. -/
inductive InputSource where
  | Gamepad : InputSource
  | Keyboard : InputSource
  | Mouse : InputSource
  deriving DecidableEq, Repr

/-- Modelled from the spec: the logical receiver keys used by the gamepad
translator (`InputReceiver`, defined outside `src/`): a named gamepad button
or a named gamepad axis. -/
inductive InputReceiver where
  | GamepadButton (b : GamepadButtonType) : InputReceiver
  | GamepadAxis (a : GamepadAxisType) : InputReceiver
  deriving DecidableEq, Repr

/-- Modelled from the spec: an `InputView` (defined outside `src/`) is a
per-device record mapping each logical receiver to its `AxisState` — with
`AxisState::ZERO` the default for unbound receivers, so the map is total —
plus the last input source that produced a change. -/
structure InputView where
  last_input_source : Option InputSource
  receivers : InputReceiver → AxisState

namespace InputView

/-- Modelled from the spec: `InputView::set_key_receiver_state` (outside
`src/`) updates the press state of the receiver keyed by `r`, leaving its
stored value and every other receiver unchanged. -/
def set_key_receiver_state (v : InputView) (r : InputReceiver) (s : PressState) : InputView :=
  { v with receivers := fun x => if x = r then { v.receivers x with press := s } else v.receivers x }

/-- Modelled from the spec: `InputView::set_axis_value` (outside `src/`)
overwrites the `AxisState` of the receiver keyed by `r` with the given raw
magnitude and press state (`AxisState::set`), atomically. -/
def set_axis_value (v : InputView) (r : InputReceiver) (value : F32) (s : PressState) : InputView :=
  { v with receivers := fun x => if x = r then (v.receivers x).set value s else v.receivers x }

end InputView

/-- `GamepadMarker` (`gamepad.rs`): binds a view to a physical gamepad. -/
structure GamepadMarker where
  gamepad : Gamepad
  deriving DecidableEq, Repr

namespace GamepadMarker

/-- `GamepadMarker::set_gamepad_button_state`: set the view's last input
source to `Gamepad`, then the press state and the axis value of the
`GamepadButton(button)` receiver. -/
def set_gamepad_button_state (_svc : GamepadMarker) (view : InputView)
    (button : GamepadButtonType) (state : PressState) (duration : F32) : InputView :=
  (({ view with last_input_source := some InputSource.Gamepad
      }).set_key_receiver_state (.GamepadButton button) state
    ).set_axis_value (.GamepadButton button) duration state

/-- `GamepadMarker::set_gamepad_axis_state`: same as the button version,
keyed by `GamepadAxis(axis)`. -/
def set_gamepad_axis_state (_svc : GamepadMarker) (view : InputView)
    (axis : GamepadAxisType) (state : PressState) (duration : F32) : InputView :=
  (({ view with last_input_source := some InputSource.Gamepad
      }).set_key_receiver_state (.GamepadAxis axis) state
    ).set_axis_value (.GamepadAxis axis) duration state

end GamepadMarker

/-- The kinds of gamepad event the translator matches on; every bevy event
kind other than `ButtonChanged` and `AxisChanged` is collapsed into
`Other`, which the source ignores with `_ => {}`. -/
inductive GamepadEventType where
  | ButtonChanged (kind : GamepadButtonType) (duration : F32) : GamepadEventType
  | AxisChanged (kind : GamepadAxisType) (value : F32) : GamepadEventType
  | Other : GamepadEventType

/-- `bevy::prelude::GamepadEvent`: the originating gamepad and the event kind. -/
structure GamepadEvent where
  gamepad : Gamepad
  event_type : GamepadEventType

/-- The dead-zone classification inlined in both branches of
`gamepad_input_system`: `Released` if `duration.abs() <= 0.1`, else
`Pressed { started_pressing_instant: None }`. -/
def deadZoneClassify (duration : F32) : PressState :=
  if F32.fle (F32.abs duration) (F32.fin (1/10)) then
    PressState.Released
  else
    PressState.Pressed none

/-- The `ButtonChanged` arm of `gamepad_input_system`: scan the query in
iteration order, `continue` past views whose marker is bound to a different
gamepad, and on the first match classify the magnitude, update that view and
`break`. -/
def applyButtonChanged (ev : GamepadEvent) (kind : GamepadButtonType) (duration : F32) :
    List (InputView × GamepadMarker) → List (InputView × GamepadMarker)
  | [] => []
  | (view, svc) :: rest =>
      if ev.gamepad ≠ svc.gamepad then
        (view, svc) :: applyButtonChanged ev kind duration rest
      else
        (svc.set_gamepad_button_state view kind (deadZoneClassify duration) duration, svc) :: rest

/-- The `AxisChanged` arm of `gamepad_input_system`: identical scan, keyed by
the axis receiver. -/
def applyAxisChanged (ev : GamepadEvent) (kind : GamepadAxisType) (value : F32) :
    List (InputView × GamepadMarker) → List (InputView × GamepadMarker)
  | [] => []
  | (view, svc) :: rest =>
      if ev.gamepad ≠ svc.gamepad then
        (view, svc) :: applyAxisChanged ev kind value rest
      else
        (svc.set_gamepad_axis_state view kind (deadZoneClassify value) value, svc) :: rest

/-- Processing of one event by `gamepad_input_system`'s `match ev.event_type`. -/
def processEvent (query : List (InputView × GamepadMarker)) (ev : GamepadEvent) :
    List (InputView × GamepadMarker) :=
  match ev.event_type with
  | .ButtonChanged kind duration => applyButtonChanged ev kind duration query
  | .AxisChanged kind value => applyAxisChanged ev kind value query
  | .Other => query

/-- `gamepad_input_system`: consume the pending events in arrival order. -/
def gamepad_input_system (query : List (InputView × GamepadMarker))
    (events : List GamepadEvent) : List (InputView × GamepadMarker) :=
  events.foldl processEvent query

/-- A concrete input view used to instantiate the translator theorems on
explicit inputs: no last input source yet, every receiver at
`AxisState::ZERO` (the rest default for unbound receivers). -/
def sampleView : InputView :=
  { last_input_source := none, receivers := fun _ => AxisState.ZERO }

/-! ## Helper lemmas -/

theorem instantCmp_self (a : Nat) : PressState.instantCmp a a = .eq := by
  simp [PressState.instantCmp]

theorem instantCmp_lt_iff (a b : Nat) : PressState.instantCmp a b = .lt ↔ a < b := by
  unfold PressState.instantCmp
  rcases Nat.lt_trichotomy a b with h | h | h
  · simp [h]
  · subst h
    simp
  · have h1 : ¬ a < b := by omega
    have h2 : ¬ a = b := by omega
    simp [h1, h2]

theorem instantCmp_eq_iff (a b : Nat) : PressState.instantCmp a b = .eq ↔ a = b := by
  unfold PressState.instantCmp
  rcases Nat.lt_trichotomy a b with h | h | h
  · have h2 : ¬ a = b := by omega
    simp [h, h2]
  · subst h
    simp
  · have h1 : ¬ a < b := by omega
    have h2 : ¬ a = b := by omega
    simp [h1, h2]

theorem instantCmp_swap (a b : Nat) :
    (PressState.instantCmp a b).swap = PressState.instantCmp b a := by
  unfold PressState.instantCmp
  rcases Nat.lt_trichotomy a b with h | h | h
  · have h1 : ¬ b < a := by omega
    have h2 : ¬ b = a := by omega
    simp [h, h1, h2, Ordering.swap]
  · subst h
    simp [Ordering.swap]
  · have h1 : ¬ a < b := by omega
    have h2 : ¬ a = b := by omega
    simp [h, h1, h2, Ordering.swap]

theorem optInstantCmp_self (a : Option Nat) : PressState.optInstantCmp a a = .eq := by
  cases a
  · rfl
  · exact instantCmp_self _

theorem optInstantCmp_eq_iff (a b : Option Nat) :
    PressState.optInstantCmp a b = .eq ↔ a = b := by
  cases a <;> cases b <;> simp [PressState.optInstantCmp, instantCmp_eq_iff]

theorem optInstantCmp_swap (a b : Option Nat) :
    (PressState.optInstantCmp a b).swap = PressState.optInstantCmp b a := by
  cases a <;> cases b <;> first | rfl | exact instantCmp_swap _ _

theorem optInstantCmp_lt_trans {a b c : Option Nat}
    (h1 : PressState.optInstantCmp a b = .lt) (h2 : PressState.optInstantCmp b c = .lt) :
    PressState.optInstantCmp a c = .lt := by
  cases a <;> cases b <;> cases c <;>
    simp_all [PressState.optInstantCmp, instantCmp_lt_iff]
  omega

/-! ## Claims about the `PressState` state machine -/

/-- **C1** (corrected): the claim as stated fails, because
`just_pressed` compares `elapsed().as_millis() <= 1` and `as_millis`
truncates: at an elapsed time of 1.5 milliseconds — more than 1 millisecond —
the truncated millisecond count is `1` and the call still returns `true`.
This closed theorem exhibits the violation at `now = 1500000` ns,
`t = 0`. -/
theorem just_pressed_millis_counterexample :
    1000000 < Instant.elapsedAt 1500000 0
    ∧ PressState.just_pressed 1500000 (.Pressed (some 0)) = true := by
  constructor
  · decide
  · rfl

/-- **C1** (amended): `just_pressed` returns `true` for `Pressed` with an
absent timestamp and `false` for `Released`; for `Pressed(Some(t))` it
returns `true` exactly when the elapsed time `now - t`, truncated to whole
milliseconds, is at most 1 — equivalently, when `now - t` is strictly less
than 2 milliseconds. -/
theorem just_pressed_spec (now t : Nat) :
    (PressState.just_pressed now (.Pressed (some t)) = true
      ↔ Instant.elapsedAt now t < 2000000)
    ∧ PressState.just_pressed now (.Pressed none) = true
    ∧ PressState.just_pressed now .Released = false := by
  refine ⟨?_, rfl, rfl⟩
  simp only [PressState.just_pressed, Duration.asMillis, Instant.elapsedAt,
    decide_eq_true_eq]
  omega

/-- **C6**: `is_pressed_for` returns `true` exactly when the state is
`Pressed(Some(t))` and the elapsed time `now - t` is at least the queried
duration; it is `false` for `Released` and for `Pressed(None)` whatever the
duration. -/
theorem is_pressed_for_spec (now d : Nat) (s : PressState) :
    (PressState.is_pressed_for now s d = true
      ↔ ∃ t : Nat, s = .Pressed (some t) ∧ d ≤ Instant.elapsedAt now t)
    ∧ PressState.is_pressed_for now .Released d = false
    ∧ PressState.is_pressed_for now (.Pressed none) d = false := by
  refine ⟨?_, rfl, rfl⟩
  cases s with
  | Pressed o =>
      cases o with
      | none => simp [PressState.is_pressed_for]
      | some t => simp [PressState.is_pressed_for]
  | Released => simp [PressState.is_pressed_for]

/-- **C7**: `elapsed` returns `Some(now - t)` for `Pressed(Some(t))`, the
zero duration for `Pressed(None)`, and `None` for `Released`. -/
theorem elapsed_spec (now t : Nat) :
    PressState.elapsed now (.Pressed (some t)) = some (now - t)
    ∧ PressState.elapsed now (.Pressed none) = some 0
    ∧ PressState.elapsed now .Released = none :=
  ⟨rfl, rfl, rfl⟩

/-- **C10**: `partial_cmp` on `PressState` always returns `Some` ordering, so
the `unwrap` inside `Ord::cmp` never panics and `cmp` is total: it returns
exactly the ordering `partial_cmp` wraps. -/
theorem pcmp_isSome (a b : PressState) :
    (PressState.pcmp a b).isSome = true
    ∧ PressState.pcmp a b = some (PressState.cmp a b) := by
  cases a <;> cases b <;> exact ⟨rfl, rfl⟩

/-- **C5**: `cmp` on `PressState` is a total order — reflexive on equality,
antisymmetric, with `cmp a b` the swap of `cmp b a`, and transitive in `lt` —
in which `Released` is strictly below every `Pressed` state, two `Pressed`
states compare by their optional timestamps with the absent timestamp
lowest, and present timestamps compare in their numeric order. -/
theorem press_state_total_order :
    (∀ a : PressState, PressState.cmp a a = .eq)
    ∧ (∀ a b : PressState, PressState.cmp a b = .eq → a = b)
    ∧ (∀ a b : PressState, (PressState.cmp a b).swap = PressState.cmp b a)
    ∧ (∀ a b c : PressState,
        PressState.cmp a b = .lt → PressState.cmp b c = .lt → PressState.cmp a c = .lt)
    ∧ (∀ o : Option Nat, PressState.cmp .Released (.Pressed o) = .lt)
    ∧ (∀ t : Nat, PressState.cmp (.Pressed none) (.Pressed (some t)) = .lt)
    ∧ (∀ t1 t2 : Nat, t1 < t2 →
        PressState.cmp (.Pressed (some t1)) (.Pressed (some t2)) = .lt) := by
  refine ⟨?_, ?_, ?_, ?_, ?_, ?_, ?_⟩
  · intro a
    cases a with
    | Pressed o => exact optInstantCmp_self o
    | Released => rfl
  · intro a b h
    cases a <;> cases b <;> simp_all [PressState.cmp, PressState.pcmp]
    exact (optInstantCmp_eq_iff _ _).mp h
  · intro a b
    cases a <;> cases b <;> first | rfl | exact optInstantCmp_swap _ _
  · intro a b c h1 h2
    cases a <;> cases b <;> cases c <;> simp_all [PressState.cmp, PressState.pcmp]
    exact optInstantCmp_lt_trans h1 h2
  · intro o
    rfl
  · intro t
    rfl
  · intro t1 t2 h
    show PressState.optInstantCmp (some t1) (some t2) = .lt
    exact (instantCmp_lt_iff t1 t2).mpr h

/-- **C5** (witness): the ordering theorem applied at concrete states. -/
theorem press_state_total_order_witness :
    PressState.cmp (.Pressed (some 1)) (.Pressed (some 2)) = .lt :=
  press_state_total_order.2.2.2.2.2.2 1 2 (by decide)

/-! ## Claims about the aggregate predicates -/

theorem allIter_eq_all (p : AxisState → Bool) (l : List AxisState) :
    IterExt.allIter p l = l.all p := by
  induction l with
  | nil => rfl
  | cons s rest ih => simp [IterExt.allIter, List.all_cons, ih]

/-- **C8**: each aggregate predicate over a sequence of `AxisState` is the
universal quantification of the corresponding per-element predicate, the
owned-vector and borrowed-iterator implementations agree on every sequence,
and the empty sequence satisfies all three. -/
theorem aggregate_predicates (now : Nat) (l : List AxisState) :
    (VecExt.is_all_pressed l = true ↔ ∀ s ∈ l, s.press.pressed = true)
    ∧ (VecExt.is_all_just_pressed now l = true
        ↔ ∀ s ∈ l, PressState.just_pressed now s.press = true)
    ∧ (VecExt.is_all_released l = true ↔ ∀ s ∈ l, s.press.released = true)
    ∧ IterExt.is_all_pressed l = VecExt.is_all_pressed l
    ∧ IterExt.is_all_just_pressed now l = VecExt.is_all_just_pressed now l
    ∧ IterExt.is_all_released l = VecExt.is_all_released l
    ∧ VecExt.is_all_pressed [] = true
    ∧ VecExt.is_all_just_pressed now [] = true
    ∧ VecExt.is_all_released [] = true := by
  refine ⟨?_, ?_, ?_, ?_, ?_, ?_, rfl, rfl, rfl⟩
  · simp [VecExt.is_all_pressed, List.all_eq_true]
  · simp [VecExt.is_all_just_pressed, List.all_eq_true]
  · simp [VecExt.is_all_released, List.all_eq_true]
  · simp [IterExt.is_all_pressed, VecExt.is_all_pressed, allIter_eq_all]
  · simp [IterExt.is_all_just_pressed, VecExt.is_all_just_pressed, allIter_eq_all]
  · simp [IterExt.is_all_released, VecExt.is_all_released, allIter_eq_all]

/-! ## Claims about the gamepad event translator -/

theorem applyButtonChanged_cons_no (ev : GamepadEvent) (kind : GamepadButtonType) (x : F32)
    (pv : InputView) (pm : GamepadMarker) (rest : List (InputView × GamepadMarker))
    (h : ev.gamepad ≠ pm.gamepad) :
    applyButtonChanged ev kind x ((pv, pm) :: rest)
      = (pv, pm) :: applyButtonChanged ev kind x rest := by
  simp [applyButtonChanged, h]

theorem applyButtonChanged_cons_yes (ev : GamepadEvent) (kind : GamepadButtonType) (x : F32)
    (pv : InputView) (pm : GamepadMarker) (rest : List (InputView × GamepadMarker))
    (h : ev.gamepad = pm.gamepad) :
    applyButtonChanged ev kind x ((pv, pm) :: rest)
      = (pm.set_gamepad_button_state pv kind (deadZoneClassify x) x, pm) :: rest := by
  simp [applyButtonChanged, h]

theorem applyAxisChanged_cons_no (ev : GamepadEvent) (kind : GamepadAxisType) (x : F32)
    (pv : InputView) (pm : GamepadMarker) (rest : List (InputView × GamepadMarker))
    (h : ev.gamepad ≠ pm.gamepad) :
    applyAxisChanged ev kind x ((pv, pm) :: rest)
      = (pv, pm) :: applyAxisChanged ev kind x rest := by
  simp [applyAxisChanged, h]

theorem applyAxisChanged_cons_yes (ev : GamepadEvent) (kind : GamepadAxisType) (x : F32)
    (pv : InputView) (pm : GamepadMarker) (rest : List (InputView × GamepadMarker))
    (h : ev.gamepad = pm.gamepad) :
    applyAxisChanged ev kind x ((pv, pm) :: rest)
      = (pm.set_gamepad_axis_state pv kind (deadZoneClassify x) x, pm) :: rest := by
  simp [applyAxisChanged, h]

theorem applyButtonChanged_append (ev : GamepadEvent) (kind : GamepadButtonType) (x : F32)
    (pre l : List (InputView × GamepadMarker))
    (hpre : ∀ p ∈ pre, p.2.gamepad ≠ ev.gamepad) :
    applyButtonChanged ev kind x (pre ++ l) = pre ++ applyButtonChanged ev kind x l := by
  induction pre with
  | nil => rfl
  | cons hd tl ih =>
      obtain ⟨pv, pm⟩ := hd
      have hne : ev.gamepad ≠ pm.gamepad :=
        Ne.symm (hpre (pv, pm) (List.mem_cons_self _ _))
      rw [List.cons_append, applyButtonChanged_cons_no ev kind x pv pm _ hne,
        ih (fun p hp => hpre p (List.mem_cons_of_mem _ hp)), List.cons_append]

theorem applyAxisChanged_append (ev : GamepadEvent) (kind : GamepadAxisType) (x : F32)
    (pre l : List (InputView × GamepadMarker))
    (hpre : ∀ p ∈ pre, p.2.gamepad ≠ ev.gamepad) :
    applyAxisChanged ev kind x (pre ++ l) = pre ++ applyAxisChanged ev kind x l := by
  induction pre with
  | nil => rfl
  | cons hd tl ih =>
      obtain ⟨pv, pm⟩ := hd
      have hne : ev.gamepad ≠ pm.gamepad :=
        Ne.symm (hpre (pv, pm) (List.mem_cons_self _ _))
      rw [List.cons_append, applyAxisChanged_cons_no ev kind x pv pm _ hne,
        ih (fun p hp => hpre p (List.mem_cons_of_mem _ hp)), List.cons_append]

theorem set_gamepad_button_state_fields (svc : GamepadMarker) (view : InputView)
    (button : GamepadButtonType) (state : PressState) (duration : F32) :
    (svc.set_gamepad_button_state view button state duration).last_input_source
        = some InputSource.Gamepad
    ∧ ((svc.set_gamepad_button_state view button state duration).receivers
        (.GamepadButton button)).press = state
    ∧ ((svc.set_gamepad_button_state view button state duration).receivers
        (.GamepadButton button)).value = duration := by
  refine ⟨rfl, ?_, ?_⟩ <;>
    simp [GamepadMarker.set_gamepad_button_state, InputView.set_axis_value,
      InputView.set_key_receiver_state, AxisState.set]

theorem set_gamepad_axis_state_fields (svc : GamepadMarker) (view : InputView)
    (axis : GamepadAxisType) (state : PressState) (duration : F32) :
    (svc.set_gamepad_axis_state view axis state duration).last_input_source
        = some InputSource.Gamepad
    ∧ ((svc.set_gamepad_axis_state view axis state duration).receivers
        (.GamepadAxis axis)).press = state
    ∧ ((svc.set_gamepad_axis_state view axis state duration).receivers
        (.GamepadAxis axis)).value = duration := by
  refine ⟨rfl, ?_, ?_⟩ <;>
    simp [GamepadMarker.set_gamepad_axis_state, InputView.set_axis_value,
      InputView.set_key_receiver_state, AxisState.set]

/-- Core characterization of one translator step on the first matching view,
shared by the dead-zone and NaN claims. -/
theorem processEvent_match_update (pre post : List (InputView × GamepadMarker))
    (view : InputView) (svc : GamepadMarker) (g : Gamepad)
    (hpre : ∀ p ∈ pre, p.2.gamepad ≠ g) (hmatch : svc.gamepad = g) (x : F32) :
    (∀ kind : GamepadButtonType, ∃ v' : InputView,
      processEvent (pre ++ (view, svc) :: post) ⟨g, .ButtonChanged kind x⟩
          = pre ++ (v', svc) :: post
        ∧ v'.last_input_source = some InputSource.Gamepad
        ∧ (v'.receivers (.GamepadButton kind)).press
            = (if F32.fle (F32.abs x) (F32.fin (1/10))
                then PressState.Released else PressState.Pressed none)
        ∧ (v'.receivers (.GamepadButton kind)).value = x)
    ∧ (∀ kind : GamepadAxisType, ∃ v' : InputView,
      processEvent (pre ++ (view, svc) :: post) ⟨g, .AxisChanged kind x⟩
          = pre ++ (v', svc) :: post
        ∧ v'.last_input_source = some InputSource.Gamepad
        ∧ (v'.receivers (.GamepadAxis kind)).press
            = (if F32.fle (F32.abs x) (F32.fin (1/10))
                then PressState.Released else PressState.Pressed none)
        ∧ (v'.receivers (.GamepadAxis kind)).value = x) := by
  constructor
  · intro kind
    refine ⟨svc.set_gamepad_button_state view kind (deadZoneClassify x) x, ?_, ?_, ?_, ?_⟩
    · show applyButtonChanged _ _ _ _ = _
      rw [applyButtonChanged_append _ _ _ _ _ hpre,
        applyButtonChanged_cons_yes _ _ _ _ _ _ hmatch.symm]
    · exact (set_gamepad_button_state_fields svc view kind _ x).1
    · rw [(set_gamepad_button_state_fields svc view kind _ x).2.1, deadZoneClassify]
    · exact (set_gamepad_button_state_fields svc view kind _ x).2.2
  · intro kind
    refine ⟨svc.set_gamepad_axis_state view kind (deadZoneClassify x) x, ?_, ?_, ?_, ?_⟩
    · show applyAxisChanged _ _ _ _ = _
      rw [applyAxisChanged_append _ _ _ _ _ hpre,
        applyAxisChanged_cons_yes _ _ _ _ _ _ hmatch.symm]
    · exact (set_gamepad_axis_state_fields svc view kind _ x).1
    · rw [(set_gamepad_axis_state_fields svc view kind _ x).2.1, deadZoneClassify]
    · exact (set_gamepad_axis_state_fields svc view kind _ x).2.2

/-- **C2**: for a button-changed or axis-changed event, the press state is
`Released` when the float comparison `|magnitude| <= 0.1` holds and
`Pressed` with no timestamp otherwise; the first view in iteration order
whose bound gamepad equals the event's gamepad gets `last_input_source =
Gamepad`, the receiver keyed by the event's button or axis kind set to that
press state, and the raw magnitude stored as that receiver's axis value. -/
theorem translator_dead_zone_update (pre post : List (InputView × GamepadMarker))
    (view : InputView) (svc : GamepadMarker) (g : Gamepad)
    (hpre : ∀ p ∈ pre, p.2.gamepad ≠ g) (hmatch : svc.gamepad = g) (x : F32) :
    (∀ kind : GamepadButtonType, ∃ v' : InputView,
      processEvent (pre ++ (view, svc) :: post) ⟨g, .ButtonChanged kind x⟩
          = pre ++ (v', svc) :: post
        ∧ v'.last_input_source = some InputSource.Gamepad
        ∧ (v'.receivers (.GamepadButton kind)).press
            = (if F32.fle (F32.abs x) (F32.fin (1/10))
                then PressState.Released else PressState.Pressed none)
        ∧ (v'.receivers (.GamepadButton kind)).value = x)
    ∧ (∀ kind : GamepadAxisType, ∃ v' : InputView,
      processEvent (pre ++ (view, svc) :: post) ⟨g, .AxisChanged kind x⟩
          = pre ++ (v', svc) :: post
        ∧ v'.last_input_source = some InputSource.Gamepad
        ∧ (v'.receivers (.GamepadAxis kind)).press
            = (if F32.fle (F32.abs x) (F32.fin (1/10))
                then PressState.Released else PressState.Pressed none)
        ∧ (v'.receivers (.GamepadAxis kind)).value = x) :=
  processEvent_match_update pre post view svc g hpre hmatch x

/-- **C2** (witness): a button-changed event for gamepad 0 with magnitude
`0.9` updates the single bound view: press state `Pressed(None)`, stored
axis value `0.9`, last input source `Gamepad`. -/
theorem translator_dead_zone_update_witness :
    ∃ v' : InputView,
      processEvent [(sampleView, ⟨⟨0⟩⟩)] ⟨⟨0⟩, .ButtonChanged 3 (.fin (9/10))⟩
          = [(v', ⟨⟨0⟩⟩)]
        ∧ v'.last_input_source = some InputSource.Gamepad
        ∧ (v'.receivers (.GamepadButton 3)).press = PressState.Pressed none
        ∧ (v'.receivers (.GamepadButton 3)).value = F32.fin (9/10) := by
  obtain ⟨v', h1, h2, h3, h4⟩ :=
    (translator_dead_zone_update [] [] sampleView ⟨⟨0⟩⟩ ⟨0⟩ (by simp) rfl (.fin (9/10))).1 3
  refine ⟨v', by simpa using h1, h2, ?_, h4⟩
  have habs : |(9/10 : ℚ)| = 9/10 := abs_of_nonneg (by norm_num)
  have hc : F32.fle (F32.abs (F32.fin (9/10))) (F32.fin (1/10)) = false := by
    simp only [F32.fle, F32.abs, habs, decide_eq_false_iff_not]
    norm_num
  rw [h3, hc]
  simp

/-- **C3**: when an event's gamepad matches the bound device of the view at
some position whose predecessors all have non-matching markers, processing
the event replaces at most that one entry — every earlier and every later
entry, including further views bound to the same gamepad inside `post`, is
returned exactly as it was. -/
theorem translator_first_match_only (pre post : List (InputView × GamepadMarker))
    (view : InputView) (svc : GamepadMarker) (ev : GamepadEvent)
    (hpre : ∀ p ∈ pre, p.2.gamepad ≠ ev.gamepad) (hmatch : svc.gamepad = ev.gamepad) :
    ∃ v' : InputView,
      processEvent (pre ++ (view, svc) :: post) ev = pre ++ (v', svc) :: post := by
  obtain ⟨g, ty⟩ := ev
  cases ty with
  | ButtonChanged kind x =>
      refine ⟨svc.set_gamepad_button_state view kind (deadZoneClassify x) x, ?_⟩
      show applyButtonChanged _ _ _ _ = _
      rw [applyButtonChanged_append _ _ _ _ _ hpre,
        applyButtonChanged_cons_yes _ _ _ _ _ _ hmatch.symm]
  | AxisChanged kind x =>
      refine ⟨svc.set_gamepad_axis_state view kind (deadZoneClassify x) x, ?_⟩
      show applyAxisChanged _ _ _ _ = _
      rw [applyAxisChanged_append _ _ _ _ _ hpre,
        applyAxisChanged_cons_yes _ _ _ _ _ _ hmatch.symm]
  | Other => exact ⟨view, rfl⟩

/-- **C3** (witness): two views both bound to gamepad 0; a button-changed
event updates only the first, the second stays `sampleView`. -/
theorem translator_first_match_only_witness :
    ∃ v' : InputView,
      processEvent [(sampleView, ⟨⟨0⟩⟩), (sampleView, ⟨⟨0⟩⟩)]
          ⟨⟨0⟩, .ButtonChanged 0 (.fin 1)⟩
        = [(v', ⟨⟨0⟩⟩), (sampleView, ⟨⟨0⟩⟩)] := by
  obtain ⟨v', h⟩ := translator_first_match_only [] [(sampleView, ⟨⟨0⟩⟩)] sampleView ⟨⟨0⟩⟩
    ⟨⟨0⟩, .ButtonChanged 0 (.fin 1)⟩ (by simp) rfl
  exact ⟨v', by simpa using h⟩

theorem applyButtonChanged_no_match (ev : GamepadEvent) (kind : GamepadButtonType) (x : F32)
    (l : List (InputView × GamepadMarker)) (h : ∀ p ∈ l, p.2.gamepad ≠ ev.gamepad) :
    applyButtonChanged ev kind x l = l := by
  have h0 : applyButtonChanged ev kind x [] = [] := rfl
  have := applyButtonChanged_append ev kind x l [] h
  simpa [h0] using this

theorem applyAxisChanged_no_match (ev : GamepadEvent) (kind : GamepadAxisType) (x : F32)
    (l : List (InputView × GamepadMarker)) (h : ∀ p ∈ l, p.2.gamepad ≠ ev.gamepad) :
    applyAxisChanged ev kind x l = l := by
  have h0 : applyAxisChanged ev kind x [] = [] := rfl
  have := applyAxisChanged_append ev kind x l [] h
  simpa [h0] using this

/-- **C4**: an event whose gamepad matches no bound marker leaves the whole
query untouched, whatever the event kind; and an event of any kind other
than button-changed or axis-changed is a no-op as well.  The translator is a
total function, so no error is possible. -/
theorem translator_no_op (query : List (InputView × GamepadMarker)) (ev : GamepadEvent) :
    ((∀ p ∈ query, p.2.gamepad ≠ ev.gamepad) → processEvent query ev = query)
    ∧ (∀ g : Gamepad, processEvent query ⟨g, .Other⟩ = query) := by
  constructor
  · intro h
    obtain ⟨g, ty⟩ := ev
    cases ty with
    | ButtonChanged kind x => exact applyButtonChanged_no_match _ kind x query h
    | AxisChanged kind x => exact applyAxisChanged_no_match _ kind x query h
    | Other => rfl
  · intro g
    rfl

/-- **C4** (witness): an event for gamepad 0 against a view bound to
gamepad 1 leaves the query unchanged. -/
theorem translator_no_op_witness :
    processEvent [(sampleView, ⟨⟨1⟩⟩)] ⟨⟨0⟩, .ButtonChanged 0 (.fin 1)⟩
      = [(sampleView, ⟨⟨1⟩⟩)] := by
  refine (translator_no_op [(sampleView, ⟨⟨1⟩⟩)] ⟨⟨0⟩, .ButtonChanged 0 (.fin 1)⟩).1 ?_
  intro p hp
  rw [List.mem_singleton] at hp
  subst hp
  decide

/-- **C9**: a button-changed or axis-changed event whose magnitude is NaN,
matching the first bound view, sets the receiver's press state to `Pressed`
with no timestamp — the dead-zone comparison `|NaN| <= 0.1` is false — and
stores the NaN magnitude unchanged as the receiver's axis value. -/
theorem translator_nan_pressed (pre post : List (InputView × GamepadMarker))
    (view : InputView) (svc : GamepadMarker) (g : Gamepad)
    (hpre : ∀ p ∈ pre, p.2.gamepad ≠ g) (hmatch : svc.gamepad = g) :
    (∀ kind : GamepadButtonType, ∃ v' : InputView,
      processEvent (pre ++ (view, svc) :: post) ⟨g, .ButtonChanged kind .nan⟩
          = pre ++ (v', svc) :: post
        ∧ (v'.receivers (.GamepadButton kind)).press = PressState.Pressed none
        ∧ (v'.receivers (.GamepadButton kind)).value = F32.nan)
    ∧ (∀ kind : GamepadAxisType, ∃ v' : InputView,
      processEvent (pre ++ (view, svc) :: post) ⟨g, .AxisChanged kind .nan⟩
          = pre ++ (v', svc) :: post
        ∧ (v'.receivers (.GamepadAxis kind)).press = PressState.Pressed none
        ∧ (v'.receivers (.GamepadAxis kind)).value = F32.nan) := by
  constructor
  · intro kind
    obtain ⟨v', h1, _, h3, h4⟩ :=
      (processEvent_match_update pre post view svc g hpre hmatch .nan).1 kind
    exact ⟨v', h1, by rw [h3]; rfl, h4⟩
  · intro kind
    obtain ⟨v', h1, _, h3, h4⟩ :=
      (processEvent_match_update pre post view svc g hpre hmatch .nan).2 kind
    exact ⟨v', h1, by rw [h3]; rfl, h4⟩

/-- **C9** (witness): an axis-changed event with NaN magnitude for the bound
view yields press state `Pressed(None)` and stored value NaN. -/
theorem translator_nan_pressed_witness :
    ∃ v' : InputView,
      processEvent [(sampleView, ⟨⟨0⟩⟩)] ⟨⟨0⟩, .AxisChanged 1 .nan⟩ = [(v', ⟨⟨0⟩⟩)]
        ∧ (v'.receivers (.GamepadAxis 1)).press = PressState.Pressed none
        ∧ (v'.receivers (.GamepadAxis 1)).value = F32.nan := by
  obtain ⟨v', h1, h2, h3⟩ :=
    (translator_nan_pressed [] [] sampleView ⟨⟨0⟩⟩ ⟨0⟩ (by simp) rfl).2 1
  exact ⟨v', by simpa using h1, h2, h3⟩
